import Mathlib

/-!
# Verification of the clockwork_muse HTTP clients

A shallow embedding of the resilient search client
(`src/clockwork_muse/tools/serper_tool.py`,
`src/clockwork_muse/tools/serper_retry.py`) and the dual-protocol LLM client
(`src/clockwork_muse/logging_llm.py`), together with theorems settling the
specification claims about them.

Modelling conventions:
* JSON values are the inductive `Json`; Python `dict` is an ordered
  association list, Python numbers (int and float alike) are exact
  rationals `ℚ`.
* Fallible Python code runs in `Except PyErr`; an uncaught Python
  exception is an `Except.error`.
* `time.sleep` and log/trace writes are modelled by recording the slept
  amounts and counting the writes in the result structure; their real-time
  and filesystem effects are outside the embedding.
* HTTP transports are supplied as functions (attempt number ↦ response, or
  URL × payload ↦ response), so theorems quantify over transports.
-/

namespace ClockworkMuse

/-- Python exception classes that the embedded code can raise. `httpError`
carries `some status` when the exception has a `.response` attached
(`raise_for_status`), `none` when it was constructed bare. -/
inductive PyErr where
  | attrError (msg : String)
  | typeError (msg : String)
  | valueError (msg : String)
  | runtimeError (msg : String)
  | httpError (status : Option Nat) (msg : String)
  | netError (msg : String)
  | indexError (msg : String)
  | assertionError
  deriving DecidableEq, Repr

deriving instance DecidableEq for Except

/-- JSON values; Python numbers are modelled as exact rationals. -/
inductive Json where
  | null
  | bool (b : Bool)
  | num (q : ℚ)
  | str (s : String)
  | arr (items : List Json)
  | obj (fields : List (String × Json))
  deriving Repr

/-- First-match association-list lookup: Python `dict` access order. -/
def jsonLookup (fields : List (String × Json)) (key : String) : Option Json :=
  match fields with
  | [] => none
  | (k, v) :: rest => if k = key then some v else jsonLookup rest key

/-- Python truthiness of a JSON value (`bool(x)`). -/
def Json.truthy : Json → Bool
  | .null => false
  | .bool b => b
  | .num q => q ≠ 0
  | .str s => s ≠ ""
  | .arr items => ¬ items.isEmpty
  | .obj fields => ¬ fields.isEmpty

/-- Python `a or b` on JSON values. -/
def pyOr (a b : Json) : Json := if a.truthy then a else b

/-- Python `d.get(key, default)`: raises `AttributeError` unless `d` is a
dict. -/
def pyGet (d : Json) (key : String) (default : Json) : Except PyErr Json :=
  match d with
  | .obj fields => .ok ((jsonLookup fields key).getD default)
  | _ => .error (.attrError "get")

/-- Render a rational the way CPython prints the number it models: integers
without a decimal point, other values as an exact decimal when the
denominator is a power of ten, else `p/q` (an approximation that no theorem
evaluates). -/
def ratRepr (q : ℚ) : String :=
  if q.den = 1 then toString q.num else toString q.num ++ "/" ++ toString q.den

mutual
/-- Approximate Python `str()` of a JSON value. Exact for strings, ints,
booleans and `None`; containers use a bracketed rendering. Only applied to
strings in every theorem below. -/
def pyStrOf : Json → String
  | .null => "None"
  | .bool b => if b then "True" else "False"
  | .num q => ratRepr q
  | .str s => s
  | .arr items => "[" ++ String.intercalate ", " (pyStrOfList items) ++ "]"
  | .obj fields => "\x7b" ++ String.intercalate ", " (pyStrOfFields fields) ++ "\x7d"

def pyStrOfList : List Json → List String
  | [] => []
  | j :: rest => pyStrOf j :: pyStrOfList rest

def pyStrOfFields : List (String × Json) → List String
  | [] => []
  | (k, v) :: rest => (k ++ ": " ++ pyStrOf v) :: pyStrOfFields rest
end

/-- JSON string escaping as in `json.dumps` (quote, backslash and the
common control characters; other characters pass through unescaped — the
theorems below only evaluate it on plain ASCII text). -/
def jsonEscape (s : String) : String :=
  String.join (s.data.map fun c =>
    if c = '"' then "\\\""
    else if c = '\\' then "\\\\"
    else if c = '\n' then "\\n"
    else if c = '\t' then "\\t"
    else if c = '\r' then "\\r"
    else String.singleton c)

mutual
/-- Compact `json.dumps` rendering with CPython's default separators
`", "` and `": "`. -/
def jsonDumps : Json → String
  | .null => "null"
  | .bool b => if b then "true" else "false"
  | .num q => ratRepr q
  | .str s => "\"" ++ jsonEscape s ++ "\""
  | .arr items => "[" ++ String.intercalate ", " (jsonDumpsList items) ++ "]"
  | .obj fields => "\x7b" ++ String.intercalate ", " (jsonDumpsFields fields) ++ "\x7d"

def jsonDumpsList : List Json → List String
  | [] => []
  | j :: rest => jsonDumps j :: jsonDumpsList rest

def jsonDumpsFields : List (String × Json) → List String
  | [] => []
  | (k, v) :: rest => ("\"" ++ jsonEscape k ++ "\": " ++ jsonDumps v) :: jsonDumpsFields rest
end

/-- Using an extracted response value as the returned text. A string is
returned as-is; a truthy non-string would make the downstream formatting
(`"\n".join` / `.strip()`) raise `TypeError`, which this models directly. -/
def jsonAsText (j : Json) : Except PyErr String :=
  match j with
  | .str s => .ok s
  | _ => .error (.typeError "expected str")

/-! ## Numeric parsing

The repository parses numeric configuration two ways: tolerantly, via
`re.search(r'[-+]?\d*\.?\d+', v)` / `re.search(r'[-+]?\d+', v)` extracting
the first numeric substring, and strictly via Python `float()` / `int()`.
Both are modelled here. The strict parsers accept the decimal-literal
subset of CPython's syntax (sign, digits, one optional point; exponent and
inf/nan forms are omitted — every input a theorem evaluates is decided
identically by CPython). -/

/-- Python `str.strip()` (strip whitespace from both ends). Structural,
unlike `String.trim`, so terms reduce in the kernel. -/
def pyStrip (s : String) : String :=
  ⟨((s.data.dropWhile Char.isWhitespace).reverse.dropWhile Char.isWhitespace).reverse⟩

def digitVal (c : Char) : ℕ := c.toNat - '0'.toNat

def digitsToNat (ds : List Char) : ℕ :=
  ds.foldl (fun a c => a * 10 + digitVal c) 0

/-- Split an optional leading `+`/`-` sign, returning the sign as ±1. -/
def splitSign (cs : List Char) : ℚ × List Char :=
  match cs with
  | '-' :: rest => (-1, rest)
  | '+' :: rest => (1, rest)
  | rest => (1, rest)

/-- Value of `intDigits.fracDigits` as an exact rational. -/
def decimalVal (sgn : ℚ) (d1 d2 : List Char) : ℚ :=
  sgn * ((digitsToNat d1 : ℚ) + (digitsToNat d2 : ℚ) / (10 ^ d2.length))

/-- Match of the regex `[-+]?\d*\.?\d+` anchored at the head of the input,
with Python's greedy-with-backtracking semantics (so `"30."` matches `30`,
`".5"` matches `0.5`). Returns the matched value. -/
def matchFloatAt (cs : List Char) : Option ℚ :=
  let (sgn, rest) := splitSign cs
  let d1 := rest.takeWhile Char.isDigit
  let rest1 := rest.dropWhile Char.isDigit
  match rest1 with
  | '.' :: rest2 =>
    let d2 := rest2.takeWhile Char.isDigit
    if d2 ≠ [] then some (decimalVal sgn d1 d2)
    else if d1 ≠ [] then some (decimalVal sgn d1 [])
    else none
  | _ => if d1 ≠ [] then some (decimalVal sgn d1 []) else none

/-- `re.search(r'[-+]?\d*\.?\d+', s)`: value of the leftmost match. -/
def searchFloat : List Char → Option ℚ
  | [] => none
  | c :: rest =>
    match matchFloatAt (c :: rest) with
    | some q => some q
    | none => searchFloat rest

/-- Match of the regex `[-+]?\d+` anchored at the head of the input. -/
def matchIntAt (cs : List Char) : Option ℤ :=
  let (sgn, rest) := splitSign cs
  let d1 := rest.takeWhile Char.isDigit
  if d1 ≠ [] then some (if sgn < 0 then -(digitsToNat d1 : ℤ) else (digitsToNat d1 : ℤ))
  else none

/-- `re.search(r'[-+]?\d+', s)`: value of the leftmost match. -/
def searchInt : List Char → Option ℤ
  | [] => none
  | c :: rest =>
    match matchIntAt (c :: rest) with
    | some n => some n
    | none => searchInt rest

/-- Decimal float literal `sign? (digits+ (. digits*)? | . digits+)`,
consuming the whole input exactly. -/
def floatLitVal (cs : List Char) : Option ℚ :=
  let (sgn, rest) := splitSign cs
  let d1 := rest.takeWhile Char.isDigit
  let rest1 := rest.dropWhile Char.isDigit
  match rest1 with
  | [] => if d1 = [] then none else some (decimalVal sgn d1 [])
  | '.' :: rest2 =>
    let d2 := rest2.takeWhile Char.isDigit
    let rest3 := rest2.dropWhile Char.isDigit
    if rest3 = [] ∧ (d1 ≠ [] ∨ d2 ≠ []) then some (decimalVal sgn d1 d2) else none
  | _ => none

/-- Strict Python `float(s)`: whitespace is stripped, then the whole string
must be a numeric literal, else `ValueError`. -/
def pyFloat (s : String) : Except PyErr ℚ :=
  match floatLitVal (pyStrip s).data with
  | some q => .ok q
  | none => .error (.valueError s)

/-- Integer literal `sign? digits+`, consuming the whole input exactly. -/
def intLitVal (cs : List Char) : Option ℤ :=
  let (sgn, rest) := splitSign cs
  if rest ≠ [] ∧ rest.all Char.isDigit then
    some (if sgn < 0 then -(digitsToNat rest : ℤ) else (digitsToNat rest : ℤ))
  else none

/-- Strict Python `int(s)`: whitespace is stripped, then the whole string
must be an integer literal, else `ValueError`. -/
def pyInt (s : String) : Except PyErr ℤ :=
  match intLitVal (pyStrip s).data with
  | some n => .ok n
  | none => .error (.valueError s)

/-- `_env_float` from `serper_retry.py`: tolerant first-numeric-substring
extraction of an environment value, never failing. -/
def env_float (v : Option String) (default : ℚ) : ℚ :=
  match v with
  | none => default
  | some s => (searchFloat s.data).getD default

/-- `_env_int` from `serper_retry.py`: tolerant first-integer-substring
extraction of an environment value, never failing. -/
def env_int (v : Option String) (default : ℤ) : ℤ :=
  match v with
  | none => default
  | some s => (searchInt s.data).getD default

/-- The `_num` lambda of `serper_tool.py` composed with the `int()` around
it: `int(m.group(0)) if (m := re.search(r"[-+]?\d+", str(s or ""))) else
int(default)`. Always succeeds. -/
def num_env (s : Option String) (default : ℤ) : ℤ :=
  (searchInt (s.getD "").data).getD default

/-- The tolerant-with-a-twist float parse on lines 39/41 of
`serper_tool.py`: `float(re.search(r"[-+]?\d*\.?\d+", getenv(k, d) or
d).group(0))` — `.group(0)` on a failed search raises `AttributeError`. -/
def env_float_group (v : Option String) (defaultStr : String) : Except PyErr ℚ :=
  let s := match v with
    | none => defaultStr
    | some x => if x = "" then defaultStr else x
  match searchFloat s.data with
  | some q => .ok q
  | none => .error (.attrError "NoneType object has no attribute group")

/-! ## Filtered query construction (`serper_retry._build_filtered_query`) -/

/-- Python `sub in s` substring membership, via `splitOn`: for a nonempty
pattern, `s.splitOn sub` has one part exactly when `sub` does not occur. -/
def pyInStr (sub s : String) : Bool :=
  if sub = "" then true else (s.splitOn sub).length ≠ 1

def DEFAULT_EXCLUDE_TERMS : List String :=
  ["virtual tour", "360", "vr", "promo", "advertisement",
   "trailer", "4k", "walkthrough", "pov", "ride pov"]

def DEFAULT_EXCLUDE_DOMAINS : List String :=
  ["pinterest.com", "x.com", "twitter.com"]

def INTENT_KEYWORDS : List String :=
  ["tip", "guide", "how to", "mistakes", "things to know"]

/-- `[t.strip() for t in s.split(",") if t.strip()]`. -/
def parseCsv (s : String) : List String :=
  ((s.splitOn ",").map pyStrip).filter (· ≠ "")

def termClause (t : String) : String := "-\"" ++ t ++ "\""

def siteClause (d : String) : String := "-site:" ++ d

def intentClause : String := "(tips OR guide OR \"how to\")"

/-- `_build_filtered_query` from `serper_retry.py`; the two environment
overrides `SEARCH_EXCLUDE_TERMS` / `SEARCH_EXCLUDE_DOMAINS` are passed as
optional strings (`os.getenv(k, "")`). -/
def build_filtered_query (q : String) (envTerms envDomains : Option String) : String :=
  let extra_terms := parseCsv (envTerms.getD "")
  let extra_domains := parseCsv (envDomains.getD "")
  let excludes := DEFAULT_EXCLUDE_TERMS ++ extra_terms
  let exclude_domains := DEFAULT_EXCLUDE_DOMAINS ++ extra_domains
  let parts := [q]
  let parts :=
    if ¬ (INTENT_KEYWORDS.any fun k => pyInStr k q.toLower) then
      parts ++ [intentClause]
    else parts
  let parts := excludes.foldl (fun ps t => ps ++ [termClause t]) parts
  let parts := exclude_domains.foldl (fun ps d => ps ++ [siteClause d]) parts
  String.intercalate " " parts

/-! ## Response normalization (shared by `serper_tool.serper_search` and
`SerperDevToolRobust._run`) -/

mutual
/-- Pretty `json.dumps(obj, ensure_ascii=False, indent=2)` as used by
`_pretty`. -/
def jsonPretty (level : ℕ) : Json → String
  | .null => "null"
  | .bool b => if b then "true" else "false"
  | .num q => ratRepr q
  | .str s => "\"" ++ jsonEscape s ++ "\""
  | .arr [] => "[]"
  | .arr (x :: xs) =>
    let pad := String.join (List.replicate (2 * (level + 1)) " ")
    "[\n" ++ pad ++
      String.intercalate (",\n" ++ pad) (jsonPrettyList (level + 1) (x :: xs)) ++
      "\n" ++ String.join (List.replicate (2 * level) " ") ++ "]"
  | .obj [] => "{}"
  | .obj (f :: fs) =>
    let pad := String.join (List.replicate (2 * (level + 1)) " ")
    "\x7b\n" ++ pad ++
      String.intercalate (",\n" ++ pad) (jsonPrettyFields (level + 1) (f :: fs)) ++
      "\n" ++ String.join (List.replicate (2 * level) " ") ++ "\x7d"

def jsonPrettyList (level : ℕ) : List Json → List String
  | [] => []
  | j :: rest => jsonPretty level j :: jsonPrettyList level rest

def jsonPrettyFields (level : ℕ) : List (String × Json) → List String
  | [] => []
  | (k, v) :: rest =>
    ("\"" ++ jsonEscape k ++ "\": " ++ jsonPretty level v) :: jsonPrettyFields level rest
end

/-- `_pretty` from `serper_tool.py` / `SerperDevToolRobust._pretty`. -/
def pretty (j : Json) : String := jsonPretty 0 j

/-- Python slice `xs[:n]` on the sliceable JSON shapes; anything else
raises `TypeError`. -/
def pySlice (j : Json) (n : ℤ) : Except PyErr Json :=
  match j with
  | .arr xs =>
    .ok (.arr (if 0 ≤ n then xs.take n.toNat else xs.take (xs.length - (-n).toNat)))
  | .str s =>
    .ok (.str (if 0 ≤ n then ⟨s.data.take n.toNat⟩ else ⟨s.data.take (s.data.length - (-n).toNat)⟩))
  | _ => .error (.typeError "object is not subscriptable")

/-- Python `for it in j`: arrays yield elements, strings one-character
strings, dicts their keys; other values raise `TypeError`. -/
def pyIterate (j : Json) : Except PyErr (List Json) :=
  match j with
  | .arr xs => .ok xs
  | .str s => .ok (s.data.map fun c => .str (String.singleton c))
  | .obj fs => .ok (fs.map fun p => .str p.1)
  | _ => .error (.typeError "object is not iterable")

/-- Using a JSON value as a Python slice index: must be an integer. -/
def pyIndexVal (j : Json) : Except PyErr ℤ :=
  match j with
  | .num q => if q.den = 1 then .ok q.num else .error (.typeError "slice indices must be integers")
  | _ => .error (.typeError "slice indices must be integers")

/-- One result item of the loop body in `serper_search` / `_run`:
`title = it.get("title") or it.get("name") or it.get("link")`,
`link = it.get("link") or it.get("url")`,
`snippet = (it.get("snippet") or it.get("summary") or "").strip()`,
kept only `if title and link`, rendered `- [title](link) — snippet`.
On a non-dict the first `.get` raises `AttributeError`; on a dict every
`.get` succeeds, so the `or` chains are pure truthiness selection, and
`.strip()` raises `TypeError`-like `AttributeError` on a truthy non-string
snippet value. -/
def itemLine (it : Json) : Except PyErr (Option String) :=
  match it with
  | .obj fs =>
    let t0 := (jsonLookup fs "title").getD .null
    let t1 := if t0.truthy then t0 else (jsonLookup fs "name").getD .null
    let title := if t1.truthy then t1 else (jsonLookup fs "link").getD .null
    let l0 := (jsonLookup fs "link").getD .null
    let link := if l0.truthy then l0 else (jsonLookup fs "url").getD .null
    let s0 := (jsonLookup fs "snippet").getD .null
    let s1 := if s0.truthy then s0 else (jsonLookup fs "summary").getD .null
    let sv := if s1.truthy then s1 else Json.str ""
    match sv with
    | .str snippet =>
      .ok (if title.truthy ∧ link.truthy then
        some ("- [" ++ pyStrOf title ++ "](" ++ pyStrOf link ++ ") — " ++ pyStrip snippet)
      else none)
    | _ => .error (.attrError "strip")
  | _ => .error (.attrError "get")

/-- The normalization shared by both search entry points: read `organic`
else `results` (Python `or`, so an empty `organic` falls through),
truncate, render each surviving item, and fall back to the raw JSON
rendering when the joined output is empty. `truncN` is evaluated at the
slice, as in the source. -/
def normalizeResults (data : Json) (truncN : Except PyErr ℤ) (raw : Json → String) :
    Except PyErr String := do
  let organic ← pyGet data "organic" (.arr [])
  let items ← if organic.truthy then pure organic else pyGet data "results" (.arr [])
  let n ← truncN
  let sliced ← pySlice items n
  let xs ← pyIterate sliced
  let opts ← xs.mapM itemLine
  let lines := opts.filterMap id
  let out := String.intercalate "\n" lines
  pure (if out = "" then raw data else out)

/-! ## HTTP transport and the retry loops -/

/-- One HTTP attempt's result as seen by the caller of `requests.post`:
either a response with a status code, a body text and a JSON decode
(`r.json()` may itself fail), or a raised exception (timeout, connection
failure). -/
inductive HttpResp where
  | resp (status : ℕ) (text : String) (body : Except PyErr Json)
  | exn (e : PyErr)

/-- Statuses the two retry loops treat as retryable. -/
def retryableStatuses : List ℕ := [429, 500, 502, 503, 504]

/-- Outcome of one iteration's `try` body: `done` = reached `return`,
`recorded` = fell through to the `last_err = ...` assignment, `raised` = an
exception was raised and caught by the blanket `except Exception`. -/
inductive AttemptOut (α : Type) where
  | done (a : α)
  | recorded (e : PyErr)
  | raised (e : PyErr)

/-- The `try` body of one `serper_search` attempt after the sleep: post,
2xx → decode + normalize + log + return; non-retryable status ≥ 400 →
`raise_for_status` raises; otherwise record a `RuntimeError` with the
status and the first 300 characters of the body text. The
`raise_for_status` message is modelled as `"{status} Error"`. -/
def toolAttempt (t : ℕ → HttpResp) (idx : ℕ) (truncN : ℤ) : AttemptOut String :=
  match t idx with
  | .exn e => .raised e
  | .resp st text body =>
    if 200 ≤ st ∧ st < 300 then
      match (do
        let data ← body
        normalizeResults data (.ok truncN) pretty : Except PyErr String) with
      | .ok out => .done out
      | .error e => .raised e
    else if st ∉ retryableStatuses ∧ 400 ≤ st then
      .raised (.httpError (some st) (toString st ++ " Error"))
    else
      .recorded (.runtimeError (toString st ++ " " ++ text.take 300))

/-- Result of a full `serper_search` call: HTTP attempts made, the amounts
slept, the number of `_log` appends, the payload posted (when
configuration parsing got that far) and the returned string or propagated
exception. -/
structure ToolRun where
  attempts : ℕ
  sleeps : List ℚ
  logs : ℕ
  payload : Option Json
  result : Except PyErr String

/-- The `for attempt in range(1, retries + 1)` loop of `serper_search`:
`delay` starts at `0.0`, the sleep is skipped while `delay` is zero (a
negative delay would make `time.sleep` raise `ValueError`, caught by the
blanket `except`), and after every iteration `delay = (delay or 0.2) *
backoff`. After the loop the final error is logged once and the last error
is raised (`raise None` is a `TypeError`). -/
def toolLoopGo (t : ℕ → HttpResp) (backoff : ℚ) (payload : Json) (truncN : ℤ) :
    ℕ → ℕ → ℚ → Option PyErr → List ℚ → ToolRun
  | 0, made, _, lastErr, sleeps =>
    { attempts := made, sleeps := sleeps, logs := 1, payload := some payload,
      result := .error (match lastErr with
        | some e => e
        | none => .typeError "exceptions must derive from BaseException") }
  | fuel + 1, made, delay, _lastErr, sleeps =>
    let nextDelay := (if delay = 0 then (1 / 5 : ℚ) else delay) * backoff
    if delay < 0 then
      toolLoopGo t backoff payload truncN fuel made nextDelay
        (some (.valueError "sleep length must be non-negative")) sleeps
    else
      let sleeps := if delay = 0 then sleeps else sleeps ++ [delay]
      match toolAttempt t (made + 1) truncN with
      | .done out =>
        { attempts := made + 1, sleeps := sleeps, logs := 1, payload := some payload,
          result := .ok out }
      | .recorded e => toolLoopGo t backoff payload truncN fuel (made + 1) nextDelay (some e) sleeps
      | .raised e => toolLoopGo t backoff payload truncN fuel (made + 1) nextDelay (some e) sleeps

/-- The environment variables read by the two search clients. -/
structure SearchEnv where
  api_key : Option String := none
  endpoint : Option String := none
  timeout : Option String := none
  retries : Option String := none
  backoff : Option String := none
  exclude_terms : Option String := none
  exclude_domains : Option String := none

/-- Configuration parsing at the top of `serper_search` (lines 34–42):
missing key raises `RuntimeError`; timeout and backoff go through
`float(re.search(...).group(0))`, retries through the tolerant `_num`
helper; `num` is clamped into `[1, 10]`. -/
def serperToolSetup (env : SearchEnv) (num : ℤ) :
    Except PyErr (String × ℚ × ℤ × ℚ × ℤ) := do
  let apiKey := env.api_key.getD ""
  if apiKey = "" then
    Except.error (.runtimeError "SERPER_API_KEY not set")
  else do
    let endpoint := pyStrip (env.endpoint.getD "https://google.serper.dev/search")
    let timeout ← env_float_group env.timeout "30"
    let retries := num_env env.retries 3
    let backoff ← env_float_group env.backoff "1.5"
    let numC := max 1 (min 10 num)
    pure (endpoint, timeout, retries, backoff, numC)

/-- `serper_search` from `serper_tool.py`, with the HTTP transport and the
environment supplied as parameters. -/
def serper_search (env : SearchEnv) (t : ℕ → HttpResp) (search_query : String) (num : ℤ) :
    ToolRun :=
  match serperToolSetup env num with
  | .error e => { attempts := 0, sleeps := [], logs := 0, payload := none, result := .error e }
  | .ok (_, _, retries, backoff, numC) =>
    let payload := Json.obj [("q", .str search_query), ("num", .num (numC : ℚ))]
    toolLoopGo t backoff payload numC retries.toNat 0 0 none []

/-- Result of `SerperDevToolRobust._http`: attempts made, the amounts
slept, and the decoded JSON or the propagated error. -/
structure HttpRun where
  attempts : ℕ
  sleeps : List ℚ
  outcome : Except PyErr Json

/-- The `try` body of one `_http` attempt after the sleep: post, 2xx →
`return r.json()`; non-retryable status ≥ 400 → `raise_for_status` raises;
otherwise record a bare `requests.HTTPError` (no response attached) with
the status and the first 300 characters of the body text. -/
def robustAttempt (t : ℕ → HttpResp) (idx : ℕ) : AttemptOut Json :=
  match t idx with
  | .exn e => .raised e
  | .resp st text body =>
    if 200 ≤ st ∧ st < 300 then
      match body with
      | .ok j => .done j
      | .error e => .raised e
    else if st ∉ retryableStatuses ∧ 400 ≤ st then
      .raised (.httpError (some st) (toString st ++ " Error"))
    else
      .recorded (.httpError none (toString st ++ " " ++ text.take 300))

/-- The `for attempt in range(1, self.retries + 1)` loop of `_http`:
`delay` starts at `0.2` — so the loop sleeps before the very first attempt
— and after every iteration `delay = delay * self.backoff`. After the loop
`assert last_err is not None; raise last_err`. -/
def robustHttpGo (t : ℕ → HttpResp) (backoff : ℚ) :
    ℕ → ℕ → ℚ → Option PyErr → List ℚ → HttpRun
  | 0, made, _, lastErr, sleeps =>
    { attempts := made, sleeps := sleeps,
      outcome := .error (match lastErr with
        | some e => e
        | none => .assertionError) }
  | fuel + 1, made, delay, _lastErr, sleeps =>
    let nextDelay := delay * backoff
    if delay < 0 then
      robustHttpGo t backoff fuel made nextDelay
        (some (.valueError "sleep length must be non-negative")) sleeps
    else
      let sleeps := if delay = 0 then sleeps else sleeps ++ [delay]
      match robustAttempt t (made + 1) with
      | .done j =>
        { attempts := made + 1, sleeps := sleeps, outcome := .ok j }
      | .recorded e => robustHttpGo t backoff fuel (made + 1) nextDelay (some e) sleeps
      | .raised e => robustHttpGo t backoff fuel (made + 1) nextDelay (some e) sleeps

/-- `SerperDevToolRobust._http` for a tool configured with `retries` and
`backoff`. -/
def robust_http (t : ℕ → HttpResp) (retries : ℤ) (backoff : ℚ) : HttpRun :=
  robustHttpGo t backoff retries.toNat 0 (1 / 5 : ℚ) none []

/-- The pydantic field defaults of `SerperDevToolRobust`, as
`(api_key?, timeout, retries, backoff, endpoint)`. -/
structure RobustCfg where
  api_key : Option String := none
  timeout : ℚ := 30
  retries : ℤ := 3
  backoff : ℚ := 3 / 2
  endpoint : String := "https://google.serper.dev/search"
  deriving DecidableEq

/-- `SerperDevToolRobust.model_post_init` (lines 82–95): fill the API key
from the environment, then overwrite timeout/retries/backoff/endpoint from
nonempty environment values using STRICT `float()` / `int()` parsing, then
require an API key. -/
def model_post_init (self : RobustCfg) (env : SearchEnv) : Except PyErr RobustCfg := do
  let keyMissing := self.api_key.getD "" = ""
  let self :=
    if keyMissing then
      match env.api_key with
      | some k => if k ≠ "" then { self with api_key := some k } else self
      | none => self
    else self
  let self ← match env.timeout with
    | some s =>
      if s ≠ "" then do
        let v ← pyFloat s
        pure { self with timeout := v }
      else pure self
    | none => pure self
  let self ← match env.retries with
    | some s =>
      if s ≠ "" then do
        let v ← pyInt s
        pure { self with retries := v }
      else pure self
    | none => pure self
  let self ← match env.backoff with
    | some s =>
      if s ≠ "" then do
        let v ← pyFloat s
        pure { self with backoff := v }
      else pure self
    | none => pure self
  let self := match env.endpoint with
    | some s => if s ≠ "" then { self with endpoint := pyStrip s } else self
    | none => self
  if self.api_key.getD "" = "" then
    Except.error (.runtimeError "SERPER_API_KEY is not set")
  else
    pure self

/-- `SerperDevToolRobust._normalize` on a string argument: the payload with
the filtered query, `num = 5` and the freshness window. -/
def normalize_params (q : String) (envTerms envDomains : Option String) : Json :=
  .obj [("q", .str (build_filtered_query q envTerms envDomains)),
        ("num", .num 5), ("tbs", .str "qdr:y")]

/-- Result of a full `SerperDevToolRobust._run` call. -/
structure RobustRun where
  attempts : ℕ
  sleeps : List ℚ
  logs : ℕ
  result : Except PyErr String

/-- `SerperDevToolRobust._run`: strip the query, build the filtered
payload, call `_http`; on success append one log line and then render the
items (a rendering failure is caught by the outer `except`, logging a
second line); on failure append one error log line and re-raise. The item
truncation reads `payload.get("num", 5)` at slice time and the raw
fallback rendering is compact `json.dumps`. -/
def robust_run (cfg : RobustCfg) (t : ℕ → HttpResp) (envTerms envDomains : Option String)
    (search_query : String) : RobustRun :=
  let q := pyStrip search_query
  let payload := normalize_params q envTerms envDomains
  let h := robust_http t cfg.retries cfg.backoff
  match h.outcome with
  | .error e =>
    { attempts := h.attempts, sleeps := h.sleeps, logs := 1, result := .error e }
  | .ok data =>
    match normalizeResults data
        (do let n ← pyGet payload "num" (.num 5); pyIndexVal n) jsonDumps with
    | .ok out => { attempts := h.attempts, sleeps := h.sleeps, logs := 1, result := .ok out }
    | .error e => { attempts := h.attempts, sleeps := h.sleeps, logs := 2, result := .error e }

/-! ## The dual-protocol LLM client (`logging_llm.LoggingLLM`) -/

/-- A chat message, the Python dict `{"role": ..., "content": ...}`; either
key may be absent and the content may be any JSON value. -/
structure Message where
  role : Option String := none
  content : Option Json := none

def msgToJson (m : Message) : Json :=
  .obj ((match m.role with | some r => [("role", Json.str r)] | none => []) ++
        (match m.content with | some c => [("content", c)] | none => []))

/-- Message with a plain string role and content, the common case. -/
def plainMsg (r c : String) : Message :=
  { role := some r, content := some (.str c) }

inductive ApiStyle where
  | openai
  | ollama
  deriving DecidableEq

/-- The per-instance state `LoggingLLM.__init__` leaves behind (`base_url`
is already `rstrip("/")`-ed, the api style already resolved). -/
structure LlmCfg where
  model : String := "m"
  base_url : String := "http://localhost:11434"
  api_key : String := ""
  temperature : Option ℚ := some (1 / 5)
  api_style : ApiStyle := .ollama

/-- The keyword arguments `LoggingLLM.call` inspects. An absent field is a
missing (or `None`) key. -/
structure Kwargs where
  temperature : Option ℚ := none
  max_tokens : Option ℤ := none
  stop : Option Json := none
  top_p : Option ℚ := none
  seed : Option ℤ := none
  frequency_penalty : Option ℚ := none
  presence_penalty : Option ℚ := none
  n : Option ℤ := none
  response_format : Option Json := none
  tool_choice : Option Json := none
  tools : Option Json := none

def optField (k : String) : Option Json → List (String × Json)
  | some v => [(k, v)]
  | none => []

/-- The `options` sub-object built for both native endpoints, in assignment
order: `num_predict` (from `int(max_tokens)`), `temperature` (always
present, `float()`-ed), `stop`, `top_p`, `seed`. -/
def ollamaOptions (kw : Kwargs) (temperature : ℚ) : List (String × Json) :=
  optField "num_predict" (kw.max_tokens.map fun v => Json.num (v : ℚ)) ++
  [("temperature", Json.num temperature)] ++
  optField "stop" kw.stop ++
  optField "top_p" (kw.top_p.map Json.num) ++
  optField "seed" (kw.seed.map fun v => Json.num (v : ℚ))

/-- The `/api/chat` request body. -/
def chatPayload (cfg : LlmCfg) (messages : List Message) (kw : Kwargs) (temperature : ℚ) :
    Json :=
  .obj [("model", .str cfg.model), ("messages", .arr (messages.map msgToJson)),
        ("stream", .bool false), ("options", .obj (ollamaOptions kw temperature))]

/-- The `/api/generate` request body. -/
def genPayload (cfg : LlmCfg) (prompt : String) (kw : Kwargs) (temperature : ℚ) : Json :=
  .obj [("model", .str cfg.model), ("prompt", .str prompt),
        ("stream", .bool false), ("options", .obj (ollamaOptions kw temperature))]

/-- The `/chat/completions` request body: model, messages, temperature,
`stream: false`, then the allow-listed optional parameters in the source's
iteration order. -/
def openaiPayload (cfg : LlmCfg) (messages : List Message) (kw : Kwargs) (temperature : ℚ) :
    Json :=
  .obj ([("model", .str cfg.model), ("messages", .arr (messages.map msgToJson)),
         ("temperature", .num temperature), ("stream", .bool false)] ++
        optField "max_tokens" (kw.max_tokens.map fun v => Json.num (v : ℚ)) ++
        optField "stop" kw.stop ++
        optField "top_p" (kw.top_p.map Json.num) ++
        optField "frequency_penalty" (kw.frequency_penalty.map Json.num) ++
        optField "presence_penalty" (kw.presence_penalty.map Json.num) ++
        optField "n" (kw.n.map fun v => Json.num (v : ℚ)) ++
        optField "response_format" kw.response_format ++
        optField "tool_choice" kw.tool_choice ++
        optField "tools" kw.tools ++
        optField "seed" (kw.seed.map fun v => Json.num (v : ℚ)))

/-- Python `str.upper()` (character-wise; exact on the ASCII roles the
client sees). Structural, unlike `String.toUpper`, so terms reduce. -/
def pyUpper (s : String) : String := ⟨s.data.map Char.toUpper⟩

/-- `str(c.get("text", c))` for one element of a multimodal content list:
only dicts have `.get`. -/
def partText (c : Json) : Except PyErr String :=
  match c with
  | .obj fs => .ok (pyStrOf ((jsonLookup fs "text").getD c))
  | _ => .error (.attrError "get")

/-- One `ROLE:\ncontent` block of `_messages_to_prompt`: the role defaults
to `user` (Python `or`), is uppercased; a falsy content becomes the empty
string, a list is flattened via `str(c.get("text", c))` joined by
newlines, anything else is rendered by `str()` inside the f-string. -/
def renderMsgPart (m : Message) : Except PyErr String := do
  let role := pyUpper (match m.role with
    | some r => if r = "" then "user" else r
    | none => "user")
  let c := m.content.getD .null
  let c := if c.truthy then c else Json.str ""
  match c with
  | .arr parts => do
    let ts ← parts.mapM partText
    pure (role ++ ":\n" ++ String.intercalate "\n" ts)
  | v => pure (role ++ ":\n" ++ pyStrOf v)

/-- `_messages_to_prompt` from `logging_llm.py`: the rendered messages plus
a final `ASSISTANT:\n` part, joined by blank lines. -/
def messages_to_prompt (messages : List Message) : Except PyErr String := do
  let parts ← messages.mapM renderMsgPart
  pure (String.intercalate "\n\n" (parts ++ ["ASSISTANT:\n"]))

/-- `/api/chat` response extraction:
`(data.get("message", {}) or {}).get("content") or data.get("response") or ""`. -/
def chatExtract (data : Json) : Except PyErr String := do
  let m0 ← pyGet data "message" (.obj [])
  let m := if m0.truthy then m0 else Json.obj []
  let c ← pyGet m "content" .null
  if c.truthy then jsonAsText c
  else do
    let r ← pyGet data "response" .null
    if r.truthy then jsonAsText r else pure ""

/-- `/api/generate` response extraction:
`data.get("response") or (data.get("message", {}) or {}).get("content") or ""`. -/
def genExtract (data : Json) : Except PyErr String := do
  let r ← pyGet data "response" .null
  if r.truthy then jsonAsText r
  else do
    let m0 ← pyGet data "message" (.obj [])
    let m := if m0.truthy then m0 else Json.obj []
    let c ← pyGet m "content" .null
    if c.truthy then jsonAsText c else pure ""

/-- Python `xs[0]` on a JSON value. -/
def pyFirstElem (j : Json) : Except PyErr Json :=
  match j with
  | .arr (x :: _) => .ok x
  | .arr [] => .error (.indexError "list index out of range")
  | .str s =>
    match s.data with
    | c :: _ => .ok (.str (String.singleton c))
    | [] => .error (.indexError "string index out of range")
  | _ => .error (.typeError "object is not subscriptable")

/-- `/chat/completions` response extraction:
`choice = (data.get("choices") or [{}])[0]`, then
`(choice.get("message") or {}).get("content") or ""`. -/
def openaiExtract (data : Json) : Except PyErr String := do
  let ch0 ← pyGet data "choices" .null
  let chs := if ch0.truthy then ch0 else Json.arr [Json.obj []]
  let choice ← pyFirstElem chs
  let m0 ← pyGet choice "message" .null
  let m := if m0.truthy then m0 else Json.obj []
  let c ← pyGet m "content" .null
  if c.truthy then jsonAsText c else pure ""

/-- Observable result of one `LoggingLLM.call`: the URLs POSTed in order,
the number of human-readable trace files written, and the returned text or
propagated exception. -/
structure LlmRun where
  posts : List String
  traces : ℕ
  result : Except PyErr String

/-- `LoggingLLM.call`: a bare string is wrapped as a single user message;
on the native style `/api/chat` is tried first and only an HTTP 404 with a
response attached triggers the single `/api/generate` fallback; on the
OpenAI style a single `/chat/completions` POST is made. The trace file is
written only after a successful POST and extraction; a propagating
exception writes nothing. The transport models `_post_json` (post +
`raise_for_status` + `.json()`). -/
def llm_call (cfg : LlmCfg) (t : String → Json → Except PyErr Json)
    (input : String ⊕ List Message) (kw : Kwargs) : LlmRun :=
  let messages := match input with
    | .inl s => [{ role := some "user", content := some (.str s) : Message }]
    | .inr ms => ms
  let temperature := kw.temperature.getD (cfg.temperature.getD 0)
  match cfg.api_style with
  | .ollama =>
    let cp := chatPayload cfg messages kw temperature
    let chatUrl := cfg.base_url ++ "/api/chat"
    match t chatUrl cp with
    | .ok data =>
      (match chatExtract data with
       | .ok text => { posts := [chatUrl], traces := 1, result := .ok text }
       | .error e => { posts := [chatUrl], traces := 0, result := .error e })
    | .error e =>
      match e with
      | .httpError (some st) msg =>
        if st = 404 then
          match messages_to_prompt messages with
          | .error e' => { posts := [chatUrl], traces := 0, result := .error e' }
          | .ok prompt =>
            let gp := genPayload cfg prompt kw temperature
            let genUrl := cfg.base_url ++ "/api/generate"
            match t genUrl gp with
            | .ok data =>
              (match genExtract data with
               | .ok text => { posts := [chatUrl, genUrl], traces := 1, result := .ok text }
               | .error e' => { posts := [chatUrl, genUrl], traces := 0, result := .error e' })
            | .error e' => { posts := [chatUrl, genUrl], traces := 0, result := .error e' }
        else { posts := [chatUrl], traces := 0, result := .error (.httpError (some st) msg) }
      | _ => { posts := [chatUrl], traces := 0, result := .error e }
  | .openai =>
    let p := openaiPayload cfg messages kw temperature
    let url := cfg.base_url ++ "/chat/completions"
    match t url p with
    | .ok data =>
      (match openaiExtract data with
       | .ok text => { posts := [url], traces := 1, result := .ok text }
       | .error e => { posts := [url], traces := 0, result := .error e })
    | .error e => { posts := [url], traces := 0, result := .error e }

/-! ## Specification-side normalization

Definitions following the wording of the specification, for comparison
with the embedded code. -/

/-- Is an optional field value a string (or absent)? The wire contract's
item fields are strings when present. -/
def isStrOpt : Option Json → Bool
  | none => true
  | some (.str _) => true
  | some _ => false

def strFieldOk (fs : List (String × Json)) (k : String) : Bool :=
  isStrOpt (jsonLookup fs k)

/-- A wire-contract result item: a JSON object whose
title/name/link/url/snippet/summary fields, when present, are strings. -/
def itemOk : Json → Bool
  | .obj fs =>
    strFieldOk fs "title" && strFieldOk fs "name" && strFieldOk fs "link" &&
    strFieldOk fs "url" && strFieldOk fs "snippet" && strFieldOk fs "summary"
  | _ => false

def itemsOk : Json → Bool
  | .arr xs => xs.all itemOk
  | _ => false

def itemsOkOpt : Option Json → Bool
  | none => true
  | some j => itemsOk j

/-- A wire-contract search response: a JSON object whose `organic` and
`results` keys, when present, hold arrays of wire-contract items. -/
def wellFormedResults : Json → Bool
  | .obj fs => itemsOkOpt (jsonLookup fs "organic") && itemsOkOpt (jsonLookup fs "results")
  | _ => false

/-- A present, nonempty (truthy) string field — the specification's notion
of an available item field. -/
def fieldStr : Option Json → Option String
  | some (.str s) => if s = "" then none else some s
  | _ => none

/-- One item line per the specification: title falls back
title → name → link, link falls back link → url, snippet falls back
snippet → summary → empty (each step taken when the previous value is
missing or empty); the item is dropped when no title or no link survives;
otherwise it renders as `- [title](link) — snippet`. -/
def specItemLineJ : Json → Option String
  | .obj fs =>
    (match ((fieldStr (jsonLookup fs "title") <|> fieldStr (jsonLookup fs "name")) <|>
            fieldStr (jsonLookup fs "link")),
           (fieldStr (jsonLookup fs "link") <|> fieldStr (jsonLookup fs "url")) with
     | some title, some link =>
       some ("- [" ++ title ++ "](" ++ link ++ ") — " ++
         pyStrip ((fieldStr (jsonLookup fs "snippet") <|>
           fieldStr (jsonLookup fs "summary")).getD ""))
     | _, _ => none)
  | _ => none

/-- The normalization as amended: the item list comes from `organic` when
that value is truthy (present AND nonempty), else from `results`; it is
truncated to the limit, surviving items are rendered, and the raw JSON
rendering of the response is returned when no lines survive. -/
def specNormalizeAmended (data : Json) (n : ℤ) (raw : Json → String) : String :=
  match data with
  | .obj fs =>
    let organic := (jsonLookup fs "organic").getD (.arr [])
    let items := if organic.truthy then organic else (jsonLookup fs "results").getD (.arr [])
    let xs := match items with
      | .arr l => l
      | _ => []
    let lines := (xs.take n.toNat).filterMap specItemLineJ
    if lines = [] then raw data else String.intercalate "\n" lines
  | _ => raw data

/-- The normalization as the claim literally words it: the item list is
read from the `organic` key, preferring it over `results`, whenever the
`organic` key is present. -/
def specNormalizeClaimed (data : Json) (n : ℤ) (raw : Json → String) : String :=
  match data with
  | .obj fs =>
    let items := match jsonLookup fs "organic" with
      | some v => v
      | none => (jsonLookup fs "results").getD (.arr [])
    let xs := match items with
      | .arr l => l
      | _ => []
    let lines := (xs.take n.toNat).filterMap specItemLineJ
    if lines = [] then raw data else String.intercalate "\n" lines
  | _ => raw data

/-! ## Concrete fixtures used by witnesses and counterexamples -/

/-- An environment carrying only the API key. -/
def envK : SearchEnv := { api_key := some "k" }

/-- A transport answering HTTP 401 on every attempt. -/
def t401 : ℕ → HttpResp := fun _ => .resp 401 "Unauthorized" (.ok .null)

/-- A wire-contract response body with one organic item. -/
def okBody : Json :=
  .obj [("organic", .arr [.obj [("title", .str "T"), ("link", .str "L")]])]

/-- A transport answering HTTP 503 on the first two attempts and HTTP 200
with `okBody` afterwards. -/
def t503 : ℕ → HttpResp := fun n =>
  if n ≤ 2 then .resp 503 "unavailable" (.ok .null) else .resp 200 "ok" (.ok okBody)

/-- A transport succeeding immediately with `okBody`. -/
def tOk : ℕ → HttpResp := fun _ => .resp 200 "ok" (.ok okBody)

/-- A native-style client configuration. -/
def cfgOllama : LlmCfg := { api_style := .ollama, base_url := "http://lo" }

/-- An OpenAI-style client configuration. -/
def cfgOpenai : LlmCfg := { api_style := .openai, base_url := "http://lo/v1" }

/-- An LLM transport answering 404 on `/api/chat` and a response object on
anything else. -/
def t404gen : String → Json → Except PyErr Json := fun url _ =>
  if url = "http://lo/api/chat" then .error (.httpError (some 404) "not found")
  else .ok (.obj [("response", .str "hi")])

/-- An LLM transport failing every POST with HTTP 500. -/
def t500llm : String → Json → Except PyErr Json := fun _ _ =>
  .error (.httpError (some 500) "server error")

/-- The response that separates the code's truthiness-based `organic`
preference from the claim's presence-based one: `organic` present but
empty, `results` nonempty. -/
def dataCE : Json :=
  .obj [("organic", .arr []),
        ("results", .arr [.obj [("title", .str "T"), ("link", .str "L"),
                                ("snippet", .str "S")]])]

/-- The geometric backoff sequence `0.2·b^lo, 0.2·b^(lo+1), …` of length
`cnt`. -/
def geomSleeps (b : ℚ) : ℕ → ℕ → List ℚ
  | _, 0 => []
  | lo, cnt + 1 => (1 / 5) * b ^ lo :: geomSleeps b (lo + 1) cnt

/-- A run writes one trace record exactly when it returned successfully. -/
def tracesMatchResult (r : LlmRun) : Prop :=
  r.traces = if r.result.isOk then 1 else 0

/-! ## Theorems -/

@[simp] lemma ok_bind {ε α β : Type} (a : α) (f : α → Except ε β) :
    (Except.ok a : Except ε α) >>= f = f a := rfl

@[simp] lemma error_bind {ε α β : Type} (e : ε) (f : α → Except ε β) :
    (Except.error e : Except ε α) >>= f = .error e := rfl

lemma termClause_inj : Function.Injective termClause := by
  intro a b h
  have h2 := congrArg String.data h
  simp only [termClause, String.data_append] at h2
  exact String.ext (List.append_cancel_left (List.append_cancel_right h2))

lemma siteClause_inj : Function.Injective siteClause := by
  intro a b h
  have h2 := congrArg String.data h
  simp only [siteClause, String.data_append] at h2
  exact String.ext (List.append_cancel_left h2)

lemma foldl_append_single {α β : Type} (f : α → β) :
    ∀ (l : List α) (init : List β),
      l.foldl (fun ps t => ps ++ [f t]) init = init ++ l.map f := by
  intro l
  induction l with
  | nil => intro init; simp
  | cons x xs ih => intro init; simp [ih]

/-- C6: for every raw query, the filtered query is the raw query, then the
intent clause `(tips OR guide OR "how to")` exactly when the lowercased
query contains none of the intent keywords, then one `-"term"` clause per
term of the built-in-plus-environment exclusion terms and one
`-site:domain` clause per domain of the built-in-plus-environment
exclusion domains, each exactly once per list entry. -/
theorem claim_C6 (q : String) (envTerms envDomains : Option String) :
    (build_filtered_query q envTerms envDomains =
      String.intercalate " "
        ([q] ++
          (if INTENT_KEYWORDS.any (fun k => pyInStr k q.toLower) then []
           else [intentClause]) ++
          (DEFAULT_EXCLUDE_TERMS ++ parseCsv (envTerms.getD "")).map termClause ++
          (DEFAULT_EXCLUDE_DOMAINS ++ parseCsv (envDomains.getD "")).map siteClause))
    ∧ (∀ t, ((DEFAULT_EXCLUDE_TERMS ++ parseCsv (envTerms.getD "")).map termClause).count
              (termClause t)
          = (DEFAULT_EXCLUDE_TERMS ++ parseCsv (envTerms.getD "")).count t)
    ∧ (∀ d, ((DEFAULT_EXCLUDE_DOMAINS ++ parseCsv (envDomains.getD "")).map siteClause).count
              (siteClause d)
          = (DEFAULT_EXCLUDE_DOMAINS ++ parseCsv (envDomains.getD "")).count d) := by
  refine ⟨?_, ?_, ?_⟩
  · unfold build_filtered_query
    simp only [foldl_append_single]
    by_cases h : (INTENT_KEYWORDS.any fun k => pyInStr k q.toLower) = true
    · simp [h, List.append_assoc]
    · simp [h, List.append_assoc]
  · intro t; exact List.count_map_of_injective _ _ termClause_inj t
  · intro d; exact List.count_map_of_injective _ _ siteClause_inj d

/-- C10: calling the LLM client with a bare string behaves identically to
calling it with the one-element list holding a single user message with
that string as content. -/
theorem claim_C10 (cfg : LlmCfg) (t : String → Json → Except PyErr Json) (s : String)
    (kw : Kwargs) :
    llm_call cfg t (.inl s) kw = llm_call cfg t (.inr [plainMsg "user" s]) kw := rfl

lemma toolLoopGo_payload (t : ℕ → HttpResp) (b : ℚ) (payload : Json) (truncN : ℤ) :
    ∀ fuel made delay lastErr sleeps,
      (toolLoopGo t b payload truncN fuel made delay lastErr sleeps).payload = some payload := by
  intro fuel
  induction fuel with
  | zero => intro made delay lastErr sleeps; rfl
  | succ n ih =>
    intro made delay lastErr sleeps
    unfold toolLoopGo
    by_cases hd : delay < 0
    · simp only [hd, if_pos, if_neg]; exact ih _ _ _ _
    · simp only [hd, if_neg]
      rcases h : toolAttempt t (made + 1) truncN with a | e | e <;> simp only []
      · rfl
      · exact ih _ _ _ _
      · exact ih _ _ _ _

lemma toolLoopGo_logs (t : ℕ → HttpResp) (b : ℚ) (payload : Json) (truncN : ℤ) :
    ∀ fuel made delay lastErr sleeps,
      (toolLoopGo t b payload truncN fuel made delay lastErr sleeps).logs = 1 := by
  intro fuel
  induction fuel with
  | zero => intro made delay lastErr sleeps; rfl
  | succ n ih =>
    intro made delay lastErr sleeps
    unfold toolLoopGo
    by_cases hd : delay < 0
    · simp only [hd, if_pos, if_neg]; exact ih _ _ _ _
    · simp only [hd, if_neg]
      rcases h : toolAttempt t (made + 1) truncN with a | e | e <;> simp only []
      · rfl
      · exact ih _ _ _ _
      · exact ih _ _ _ _

lemma serperToolSetup_clamp (env : SearchEnv) (num : ℤ) :
    serperToolSetup env (max 1 (min 10 num)) = serperToolSetup env num := by
  unfold serperToolSetup
  have h : max 1 (min 10 (max 1 (min 10 num))) = max 1 (min 10 num) := by omega
  simp only [h]

lemma serperToolSetup_num (env : SearchEnv) (num : ℤ)
    (out : String × ℚ × ℤ × ℚ × ℤ) (h : serperToolSetup env num = .ok out) :
    out.2.2.2.2 = max 1 (min 10 num) := by
  unfold serperToolSetup at h
  by_cases hk : env.api_key.getD "" = "" <;> simp only [hk, if_pos, if_neg] at h
  · cases h
  · rcases h1 : env_float_group env.timeout "30" with e | v <;>
      rw [h1] at h <;> simp only [ok_bind, error_bind] at h
    · cases h
    · rcases h2 : env_float_group env.backoff "1.5" with e | w <;>
        rw [h2] at h <;> simp only [ok_bind, error_bind] at h
      · cases h
      · cases h; rfl

/-- C9: the result count used by `serper_search` is the supplied integer
clamped into `[1, 10]` — below-range values behave as 1, above-range
values as 10, never an error — and the payload sent to the backend carries
the clamped count. -/
theorem claim_C9 (env : SearchEnv) (t : ℕ → HttpResp) (q : String) (num : ℤ) :
    (1 ≤ max 1 (min 10 num) ∧ max 1 (min 10 num) ≤ 10)
    ∧ (num < 1 → max 1 (min 10 num) = 1)
    ∧ (10 < num → max 1 (min 10 num) = 10)
    ∧ serper_search env t q num = serper_search env t q (max 1 (min 10 num))
    ∧ ((serperToolSetup env num).isOk = true →
        (serper_search env t q num).payload =
          some (.obj [("q", .str q), ("num", .num ((max 1 (min 10 num) : ℤ) : ℚ))])) := by
  refine ⟨⟨by omega, by omega⟩, by omega, by omega, ?_, ?_⟩
  · unfold serper_search
    rw [serperToolSetup_clamp]
  · intro hok
    unfold serper_search
    rcases h : serperToolSetup env num with e | out
    · rw [h] at hok; cases hok
    · obtain ⟨ep, tm, rt, b, nC⟩ := out
      have hn := serperToolSetup_num env num _ h
      simp only at hn
      subst hn
      exact toolLoopGo_payload _ _ _ _ _ _ _ _ _

theorem claim_C9_witness :
    ((-5 : ℤ) < 1)
    ∧ serper_search envK t401 "q" (-5) = serper_search envK t401 "q" 1
    ∧ (serperToolSetup envK (-5)).isOk = true
    ∧ (serper_search envK t401 "q" (-5)).payload =
        some (.obj [("q", .str "q"), ("num", .num ((1 : ℤ) : ℚ))]) := by
  have h := claim_C9 envK t401 "q" (-5)
  have hm : max 1 (min 10 (-5 : ℤ)) = 1 := by decide
  refine ⟨by decide, ?_, by decide, ?_⟩
  · have h4 := h.2.2.2.1
    rw [hm] at h4
    exact h4
  · have h5 := h.2.2.2.2 (by decide)
    rw [hm] at h5
    exact h5

lemma renderMsgPart_plain (r c : String) (hr : r ≠ "") :
    renderMsgPart (plainMsg r c) = .ok (pyUpper r ++ ":\n" ++ c) := by
  by_cases hc : c = ""
  · subst hc; simp [renderMsgPart, plainMsg, hr, Json.truthy, pyStrOf]; rfl
  · simp [renderMsgPart, plainMsg, hr, hc, Json.truthy, pyStrOf]; rfl

lemma mapM_renderMsgPart (l : List (String × String)) (h : ∀ p ∈ l, p.1 ≠ "") :
    (l.map fun p => plainMsg p.1 p.2).mapM renderMsgPart
      = .ok (l.map fun p => pyUpper p.1 ++ ":\n" ++ p.2) := by
  induction l with
  | nil => rfl
  | cons p ps ih =>
    simp only [List.map_cons, List.mapM_cons]
    rw [renderMsgPart_plain p.1 p.2 (h p (by simp))]
    rw [ih (fun q hq => h q (by simp [hq]))]
    rfl

/-- C8: for every list of plain messages, the `/api/generate` prompt
renders each message as its uppercased role, a colon, a newline and its
content, joins the blocks with blank lines, and ends with a final
`ASSISTANT:` cue part. -/
theorem claim_C8 (msgs : List (String × String)) (h : ∀ p ∈ msgs, p.1 ≠ "") :
    messages_to_prompt (msgs.map fun p => plainMsg p.1 p.2)
      = .ok (String.intercalate "\n\n"
          ((msgs.map fun p => pyUpper p.1 ++ ":\n" ++ p.2) ++ ["ASSISTANT:\n"])) := by
  unfold messages_to_prompt
  rw [mapM_renderMsgPart msgs h]
  rfl

theorem claim_C8_witness :
    (∀ p ∈ [("system", "be nice"), ("user", "hello")], (p.1 : String) ≠ "")
    ∧ messages_to_prompt [plainMsg "system" "be nice", plainMsg "user" "hello"]
        = .ok "SYSTEM:\nbe nice\n\nUSER:\nhello\n\nASSISTANT:\n" := by
  constructor
  · decide
  · rw [show [plainMsg "system" "be nice", plainMsg "user" "hello"]
          = [("system", "be nice"), ("user", "hello")].map (fun p => plainMsg p.1 p.2)
        from rfl]
    rw [claim_C8 _ (by decide)]
    decide

/-- C7: refuted on `SerperDevToolRobust.model_post_init` — a configured
timeout of `"30  # seconds"` makes the strict `float()` call raise
`ValueError` at construction, while the tolerant first-numeric-substring
helpers (`_env_float`, and `serper_search`'s own parsing) extract `30`
from the same string. The claim's "always … never by strict parsing" is
contradicted by the class's `model_post_init`. -/
theorem claim_C7 :
    model_post_init {} { api_key := some "k", timeout := some "30  # seconds" }
        = .error (.valueError "30  # seconds")
    ∧ env_float (some "30  # seconds") 99 = 30
    ∧ serperToolSetup { api_key := some "k", timeout := some "30  # seconds" } 5
        = .ok ("https://google.serper.dev/search", 30, 3, 3 / 2, 5) := by
  refine ⟨by decide, by with_unfolding_all decide, by with_unfolding_all decide⟩

/-- C2: refuted on the code — in both retry loops the
`r.raise_for_status()` for a non-retryable status sits inside the `try`
whose blanket `except Exception` catches it, so an HTTP 401 on the first
attempt does NOT abort the loop: all three default attempts are made (with
two backoff sleeps in `serper_search`, three in `_http`) and the 401 error
is raised only after exhaustion. The code comment "otherwise raise
immediately" states the claimed (intended) behavior, so this is a code
bug. The "last observed error is raised" half of the claim does hold, as
the final results show. -/
theorem claim_C2 :
    (serper_search envK t401 "q" 5).attempts = 3
    ∧ (serper_search envK t401 "q" 5).result = .error (.httpError (some 401) "401 Error")
    ∧ (serper_search envK t401 "q" 5).sleeps = [(3 : ℚ) / 10, (9 : ℚ) / 20]
    ∧ (robust_http t401 3 (3 / 2)).attempts = 3
    ∧ (robust_http t401 3 (3 / 2)).outcome = .error (.httpError (some 401) "401 Error") := by
  refine ⟨by with_unfolding_all decide, by with_unfolding_all decide,
    by with_unfolding_all decide, by with_unfolding_all decide, by with_unfolding_all rfl⟩

/-- C4: on the native path, an HTTP 404 from `/api/chat` (with a response
attached) triggers exactly one `/api/generate` POST whose extracted
response text is returned; any other HTTP error from `/api/chat`
propagates with no fallback POST. -/
theorem claim_C4 (cfg : LlmCfg) (t : String → Json → Except PyErr Json)
    (msgs : List Message) (kw : Kwargs) (hstyle : cfg.api_style = .ollama) :
    (∀ m404 prompt,
      t (cfg.base_url ++ "/api/chat")
          (chatPayload cfg msgs kw (kw.temperature.getD (cfg.temperature.getD 0)))
        = .error (.httpError (some 404) m404) →
      messages_to_prompt msgs = .ok prompt →
      (llm_call cfg t (.inr msgs) kw).posts
          = [cfg.base_url ++ "/api/chat", cfg.base_url ++ "/api/generate"]
        ∧ (llm_call cfg t (.inr msgs) kw).result
          = (t (cfg.base_url ++ "/api/generate")
               (genPayload cfg prompt kw (kw.temperature.getD (cfg.temperature.getD 0)))).bind
              genExtract)
    ∧ (∀ st m, st ≠ 404 →
        t (cfg.base_url ++ "/api/chat")
            (chatPayload cfg msgs kw (kw.temperature.getD (cfg.temperature.getD 0)))
          = .error (.httpError (some st) m) →
        (llm_call cfg t (.inr msgs) kw).posts = [cfg.base_url ++ "/api/chat"]
          ∧ (llm_call cfg t (.inr msgs) kw).result
            = .error (.httpError (some st) m)) := by
  obtain ⟨model, base, key, temp, style⟩ := cfg
  simp only at hstyle
  subst hstyle
  constructor
  · intro m404 prompt h404 hprompt
    simp only [llm_call, h404, hprompt]
    rcases hg : t (base ++ "/api/generate")
        (genPayload ⟨model, base, key, temp, .ollama⟩ prompt kw
          (kw.temperature.getD (temp.getD 0))) with e | data
    · simp [hg, Except.bind]
    · rcases he : genExtract data with e' | text <;> simp [hg, he, Except.bind]
  · intro st m hne h
    simp only [llm_call, h]
    simp [hne]

theorem claim_C4_witness :
    cfgOllama.api_style = .ollama
    ∧ t404gen (cfgOllama.base_url ++ "/api/chat")
        (chatPayload cfgOllama [plainMsg "user" "x"] {}
          (Kwargs.temperature {} |>.getD (cfgOllama.temperature.getD 0)))
        = .error (.httpError (some 404) "not found")
    ∧ messages_to_prompt [plainMsg "user" "x"] = .ok "USER:\nx\n\nASSISTANT:\n"
    ∧ (llm_call cfgOllama t404gen (.inr [plainMsg "user" "x"]) {}).posts
        = ["http://lo/api/chat", "http://lo/api/generate"]
    ∧ (llm_call cfgOllama t404gen (.inr [plainMsg "user" "x"]) {}).result = .ok "hi" := by
  have h := (claim_C4 cfgOllama t404gen [plainMsg "user" "x"] {} rfl).1 "not found"
      "USER:\nx\n\nASSISTANT:\n" (by with_unfolding_all rfl) (by rfl)
  refine ⟨rfl, by with_unfolding_all rfl, by rfl, ?_, ?_⟩
  · exact h.1.trans (by with_unfolding_all rfl)
  · exact h.2.trans (by with_unfolding_all rfl)

lemma robustHttpGo_run (t : ℕ → HttpResp) {b : ℚ} (hb : 0 < b) :
    ∀ fuel made lastErr sleeps0,
      made ≤ (robustHttpGo t b fuel made ((1 / 5) * b ^ made) lastErr sleeps0).attempts
      ∧ (robustHttpGo t b fuel made ((1 / 5) * b ^ made) lastErr sleeps0).attempts ≤ made + fuel
      ∧ (robustHttpGo t b fuel made ((1 / 5) * b ^ made) lastErr sleeps0).sleeps
          = sleeps0 ++ geomSleeps b made
              ((robustHttpGo t b fuel made ((1 / 5) * b ^ made) lastErr sleeps0).attempts
                - made) := by
  intro fuel
  induction fuel with
  | zero =>
    intro made lastErr sleeps0
    simp [robustHttpGo, geomSleeps]
  | succ n ih =>
    intro made lastErr sleeps0
    have hpos : 0 < (1 / 5 : ℚ) * b ^ made := by positivity
    have hstep : (1 / 5 : ℚ) * b ^ made * b = (1 / 5) * b ^ (made + 1) := by ring
    unfold robustHttpGo
    rw [if_neg (not_lt.mpr hpos.le), if_neg hpos.ne']
    rcases robustAttempt t (made + 1) with j | e | e <;> dsimp only
    · refine ⟨Nat.le_succ made, by omega, ?_⟩
      simp [geomSleeps]
    · rw [hstep]
      obtain ⟨h1, h2, h3⟩ := ih (made + 1) (some e) (sleeps0 ++ [(1 / 5) * b ^ made])
      refine ⟨by omega, by omega, ?_⟩
      rw [h3]
      have hd : (robustHttpGo t b n (made + 1) ((1 / 5) * b ^ (made + 1)) (some e)
            (sleeps0 ++ [(1 / 5) * b ^ made])).attempts - made
          = ((robustHttpGo t b n (made + 1) ((1 / 5) * b ^ (made + 1)) (some e)
            (sleeps0 ++ [(1 / 5) * b ^ made])).attempts - (made + 1)) + 1 := by omega
      rw [hd]
      simp [geomSleeps]
    · rw [hstep]
      obtain ⟨h1, h2, h3⟩ := ih (made + 1) (some e) (sleeps0 ++ [(1 / 5) * b ^ made])
      refine ⟨by omega, by omega, ?_⟩
      rw [h3]
      have hd : (robustHttpGo t b n (made + 1) ((1 / 5) * b ^ (made + 1)) (some e)
            (sleeps0 ++ [(1 / 5) * b ^ made])).attempts - made
          = ((robustHttpGo t b n (made + 1) ((1 / 5) * b ^ (made + 1)) (some e)
            (sleeps0 ++ [(1 / 5) * b ^ made])).attempts - (made + 1)) + 1 := by omega
      rw [hd]
      simp [geomSleeps]

lemma toolLoopGo_run (t : ℕ → HttpResp) (payload : Json) (truncN : ℤ) {b : ℚ} (hb : 0 < b) :
    ∀ fuel made lastErr sleeps0,
      made ≤ (toolLoopGo t b payload truncN fuel made
          (if made = 0 then 0 else (1 / 5) * b ^ made) lastErr sleeps0).attempts
      ∧ (toolLoopGo t b payload truncN fuel made
          (if made = 0 then 0 else (1 / 5) * b ^ made) lastErr sleeps0).attempts ≤ made + fuel
      ∧ (toolLoopGo t b payload truncN fuel made
          (if made = 0 then 0 else (1 / 5) * b ^ made) lastErr sleeps0).sleeps
          = sleeps0 ++ geomSleeps b (max made 1)
              ((toolLoopGo t b payload truncN fuel made
                (if made = 0 then 0 else (1 / 5) * b ^ made) lastErr sleeps0).attempts
                - max made 1) := by
  intro fuel
  induction fuel with
  | zero =>
    intro made lastErr sleeps0
    have h0 : made - max made 1 = 0 := by omega
    simp [toolLoopGo, h0, geomSleeps]
  | succ n ih =>
    intro made lastErr sleeps0
    rcases made with _ | m
    · have harg : (if (0 : ℕ) = 0 then (0 : ℚ) else (1 / 5) * b ^ 0) = 0 := by norm_num
      rw [harg]
      unfold toolLoopGo
      rw [if_neg (by norm_num : ¬ (0 : ℚ) < 0)]
      have hnext : ((if (0 : ℚ) = 0 then (1 / 5 : ℚ) else 0) * b)
          = (if (1 : ℕ) = 0 then 0 else (1 / 5) * b ^ 1) := by
        norm_num
      have hsl : (if (0 : ℚ) = 0 then sleeps0 else sleeps0 ++ [(0 : ℚ)]) = sleeps0 := by
        norm_num
      dsimp only
      rw [hnext, hsl]
      have hmax0 : (0 : ℕ) ⊔ 1 = 1 := by omega
      have hmax1 : (1 : ℕ) ⊔ 1 = 1 := by omega
      rcases hA : toolAttempt t (0 + 1) truncN with a | e | e <;>
          simp only [hA, Nat.zero_add, hmax0]
      · exact ⟨Nat.zero_le 1, by omega, by simp [geomSleeps]⟩
      · obtain ⟨h1, h2, h3⟩ := ih 1 (some e) sleeps0
        rw [hmax1] at h3
        exact ⟨by omega, by omega, by rw [h3]⟩
      · obtain ⟨h1, h2, h3⟩ := ih 1 (some e) sleeps0
        rw [hmax1] at h3
        exact ⟨by omega, by omega, by rw [h3]⟩
    · have harg : (if (m + 1 : ℕ) = 0 then (0 : ℚ) else (1 / 5) * b ^ (m + 1))
          = (1 / 5) * b ^ (m + 1) := by
        rw [if_neg (Nat.succ_ne_zero m)]
      rw [harg]
      have hpos : 0 < (1 / 5 : ℚ) * b ^ (m + 1) := by positivity
      unfold toolLoopGo
      rw [if_neg (not_lt.mpr hpos.le), if_neg hpos.ne']
      have hnext : ((if (1 / 5 : ℚ) * b ^ (m + 1) = 0 then (1 / 5 : ℚ)
            else (1 / 5) * b ^ (m + 1)) * b)
          = (if (m + 1 + 1 : ℕ) = 0 then 0 else (1 / 5) * b ^ (m + 1 + 1)) := by
        rw [if_neg hpos.ne', if_neg (Nat.succ_ne_zero _)]
        ring
      dsimp only
      rw [hnext]
      have hm : max (m + 1) 1 = m + 1 := by omega
      have hm2 : max (m + 1 + 1) 1 = m + 1 + 1 := by omega
      rcases hA : toolAttempt t (m + 1 + 1) truncN with a | e | e <;> simp only [hA]
      · refine ⟨Nat.le_succ _, by omega, ?_⟩
        have hd : m + 1 + 1 - max (m + 1) 1 = 1 := by omega
        rw [hd, hm]
        simp [geomSleeps]
      · obtain ⟨h1, h2, h3⟩ := ih (m + 1 + 1) (some e) (sleeps0 ++ [(1 / 5) * b ^ (m + 1)])
        rw [hm2] at h3
        refine ⟨by omega, by omega, ?_⟩
        rw [h3, hm]
        have hd : (toolLoopGo t b payload truncN n (m + 1 + 1)
              (if (m + 1 + 1 : ℕ) = 0 then 0 else (1 / 5) * b ^ (m + 1 + 1)) (some e)
              (sleeps0 ++ [(1 / 5) * b ^ (m + 1)])).attempts - (m + 1)
            = ((toolLoopGo t b payload truncN n (m + 1 + 1)
              (if (m + 1 + 1 : ℕ) = 0 then 0 else (1 / 5) * b ^ (m + 1 + 1)) (some e)
              (sleeps0 ++ [(1 / 5) * b ^ (m + 1)])).attempts - (m + 1 + 1)) + 1 := by omega
        rw [hd]
        simp [geomSleeps]
      · obtain ⟨h1, h2, h3⟩ := ih (m + 1 + 1) (some e) (sleeps0 ++ [(1 / 5) * b ^ (m + 1)])
        rw [hm2] at h3
        refine ⟨by omega, by omega, ?_⟩
        rw [h3, hm]
        have hd : (toolLoopGo t b payload truncN n (m + 1 + 1)
              (if (m + 1 + 1 : ℕ) = 0 then 0 else (1 / 5) * b ^ (m + 1 + 1)) (some e)
              (sleeps0 ++ [(1 / 5) * b ^ (m + 1)])).attempts - (m + 1)
            = ((toolLoopGo t b payload truncN n (m + 1 + 1)
              (if (m + 1 + 1 : ℕ) = 0 then 0 else (1 / 5) * b ^ (m + 1 + 1)) (some e)
              (sleeps0 ++ [(1 / 5) * b ^ (m + 1)])).attempts - (m + 1 + 1)) + 1 := by omega
        rw [hd]
        simp [geomSleeps]

/-- C3 counterexample: `SerperDevToolRobust._http` starts with
`delay = 0.2`, so it sleeps 0.2s BEFORE the very first attempt — here the
first attempt succeeds immediately, yet one sleep of 0.2s was performed —
contradicting the claim that no sleep occurs before the very first
attempt. -/
theorem claim_C3_counterexample :
    (robust_http tOk 3 (3 / 2)).attempts = 1
    ∧ (robust_http tOk 3 (3 / 2)).sleeps = [(1 : ℚ) / 5]
    ∧ ([(1 : ℚ) / 5] : List ℚ) ≠ [] := by
  exact ⟨by with_unfolding_all rfl, by with_unfolding_all rfl, by simp⟩

/-- C3 (amended): `serper_search` makes up to `retries` attempts (default
3 with default backoff 1.5), never sleeps before its first attempt, and
before attempt k (k ≥ 2) sleeps `0.2·backoff^(k-1)` — the initial 0.2 is
multiplied by the backoff before the first sleep. `SerperDevToolRobust._http`
also makes up to `retries` attempts, but additionally sleeps before the
very first attempt: its sleep before attempt k (k ≥ 1) is
`0.2·backoff^(k-1)`, starting with a 0.2s sleep before attempt 1. -/
theorem claim_C3 :
    (∀ env t q num ep tm rt b nC,
      serperToolSetup env num = .ok (ep, tm, rt, b, nC) → 0 < b →
      (serper_search env t q num).attempts ≤ rt.toNat
      ∧ (serper_search env t q num).sleeps
          = geomSleeps b 1 ((serper_search env t q num).attempts - 1))
    ∧ (∀ t rt b, 0 < b →
      (robust_http t rt b).attempts ≤ rt.toNat
      ∧ (robust_http t rt b).sleeps = geomSleeps b 0 ((robust_http t rt b).attempts))
    ∧ num_env none 3 = 3
    ∧ env_float_group none "1.5" = .ok (3 / 2)
    ∧ ({} : RobustCfg).retries = 3
    ∧ ({} : RobustCfg).backoff = 3 / 2 := by
  refine ⟨?_, ?_, by decide, by with_unfolding_all decide, by decide,
    by with_unfolding_all decide⟩
  · intro env t q num ep tm rt b nC hsetup hb
    unfold serper_search
    simp only [hsetup]
    have h := toolLoopGo_run t (Json.obj [("q", .str q), ("num", .num (nC : ℚ))]) nC hb
      rt.toNat 0 none []
    simp only [show (if (0 : ℕ) = 0 then (0 : ℚ) else (1 / 5) * b ^ 0) = 0 from by norm_num,
      show (0 : ℕ) ⊔ 1 = 1 from by omega, List.nil_append, Nat.zero_add] at h
    exact ⟨h.2.1, h.2.2⟩
  · intro t rt b hb
    unfold robust_http
    have h := robustHttpGo_run t hb rt.toNat 0 none []
    simp only [pow_zero, mul_one, List.nil_append, Nat.zero_add, Nat.sub_zero] at h
    exact ⟨h.2.1, h.2.2⟩

theorem claim_C3_witness :
    serperToolSetup envK 5 = .ok ("https://google.serper.dev/search", 30, 3, 3 / 2, 5)
    ∧ (0 : ℚ) < 3 / 2
    ∧ (serper_search envK t503 "q" 5).attempts ≤ (3 : ℤ).toNat
    ∧ (serper_search envK t503 "q" 5).sleeps = [(3 : ℚ) / 10, (9 : ℚ) / 20]
    ∧ (robust_http t503 3 (3 / 2)).attempts ≤ (3 : ℤ).toNat
    ∧ (robust_http t503 3 (3 / 2)).sleeps = [(1 : ℚ) / 5, (3 : ℚ) / 10, (9 : ℚ) / 20] := by
  have hsetup : serperToolSetup envK 5
      = .ok ("https://google.serper.dev/search", 30, 3, 3 / 2, 5) := by
    with_unfolding_all rfl
  have hb : (0 : ℚ) < 3 / 2 := by norm_num
  have ha := claim_C3.1 envK t503 "q" 5 _ _ _ _ _ hsetup hb
  have hc := claim_C3.2.1 t503 3 (3 / 2) hb
  refine ⟨hsetup, hb, ha.1, ?_, hc.1, ?_⟩
  · exact ha.2.trans (by with_unfolding_all rfl)
  · exact hc.2.trans (by with_unfolding_all rfl)

lemma isStrOpt_cases {o : Option Json} (h : isStrOpt o = true) :
    o = none ∨ ∃ s, o = some (.str s) := by
  rcases o with _ | v
  · exact Or.inl rfl
  · right
    cases v
    case str s => exact ⟨s, rfl⟩
    all_goals simp [isStrOpt] at h

@[simp] lemma pure_ok {ε α : Type} (a : α) : (pure a : Except ε α) = .ok a := rfl

lemma ok_ite {ε α : Type} (c : Prop) [Decidable c] (x y : α) :
    (if c then (Except.ok x : Except ε α) else .ok y) = .ok (if c then x else y) := by
  split_ifs <;> rfl

/-- Base case of the truthiness-fallback chains: a single wire-contract
field, as the code sees it (`it.get(k)`, default `None`) versus as the
specification sees it (`fieldStr`). -/
lemma chain_base (a : Option Json) (ha : isStrOpt a = true) :
    (a.getD Json.null).truthy = (fieldStr a).isSome
    ∧ (∀ s, fieldStr a = some s → a.getD Json.null = .str s) := by
  rcases isStrOpt_cases ha with rfl | ⟨sa, rfl⟩
  · simp [fieldStr, Json.truthy]
  · by_cases hsa : sa = "" <;> simp [fieldStr, Json.truthy, hsa]

/-- One `x or it.get(k)` fallback step. -/
lemma chain_step (v : Json) (c : Option Json) (o : Option String) (hc : isStrOpt c = true)
    (hvt : v.truthy = o.isSome) (hvv : ∀ s, o = some s → v = .str s) :
    ((if v.truthy then v else c.getD Json.null).truthy = (o <|> fieldStr c).isSome
    ∧ ∀ s, (o <|> fieldStr c) = some s →
        (if v.truthy then v else c.getD Json.null) = .str s) := by
  rcases ho : o with _ | s0
  · rw [ho] at hvt
    simp only [hvt, Option.isSome_none, Bool.false_eq_true, if_false, Option.none_orElse]
    exact chain_base c hc
  · simp only [ho, Option.isSome_some] at hvt
    have hv := hvv s0 ho
    subst hv
    simp only [hvt, if_true, Option.some_orElse, Option.isSome_some]
    exact ⟨trivial, fun s hs => by rw [Option.some.inj hs]⟩

/-- The snippet value: `(x or "")` then `.strip()` sees a string. -/
lemma snip_step (v : Json) (o : Option String)
    (hvt : v.truthy = o.isSome) (hvv : ∀ s, o = some s → v = .str s) :
    (if v.truthy then v else Json.str "") = .str (o.getD "") := by
  rcases ho : o with _ | s0
  · rw [ho] at hvt
    simp [hvt]
  · have hv := hvv s0 ho
    subst hv
    simp only [ho, Option.isSome_some] at hvt
    simp [hvt, ho]

lemma itemLine_wf (fs : List (String × Json)) (h : itemOk (.obj fs) = true) :
    itemLine (.obj fs) = .ok (specItemLineJ (.obj fs)) := by
  simp only [itemOk, strFieldOk, Bool.and_eq_true] at h
  obtain ⟨⟨⟨⟨⟨ht, hn⟩, hl⟩, hu⟩, hs⟩, hm⟩ := h
  obtain ⟨ht1, hv1⟩ := chain_base (jsonLookup fs "title") ht
  obtain ⟨ht2, hv2⟩ := chain_step _ (jsonLookup fs "name") _ hn ht1 hv1
  obtain ⟨ht3, hv3⟩ := chain_step _ (jsonLookup fs "link") _ hl ht2 hv2
  obtain ⟨hl1, hw1⟩ := chain_base (jsonLookup fs "link") hl
  obtain ⟨hl2, hw2⟩ := chain_step _ (jsonLookup fs "url") _ hu hl1 hw1
  obtain ⟨hs1, hx1⟩ := chain_base (jsonLookup fs "snippet") hs
  obtain ⟨hs2, hx2⟩ := chain_step _ (jsonLookup fs "summary") _ hm hs1 hx1
  have hsnip := snip_step _ _ hs2 hx2
  show (match (if (if ((jsonLookup fs "snippet").getD .null).truthy
          then (jsonLookup fs "snippet").getD .null
          else (jsonLookup fs "summary").getD .null).truthy
        then (if ((jsonLookup fs "snippet").getD .null).truthy
          then (jsonLookup fs "snippet").getD .null
          else (jsonLookup fs "summary").getD .null)
        else Json.str "") with
    | .str snippet =>
      Except.ok (if (if (if ((jsonLookup fs "title").getD .null).truthy
            then (jsonLookup fs "title").getD .null
            else (jsonLookup fs "name").getD .null).truthy
          then (if ((jsonLookup fs "title").getD .null).truthy
            then (jsonLookup fs "title").getD .null
            else (jsonLookup fs "name").getD .null)
          else (jsonLookup fs "link").getD .null).truthy
          ∧ (if ((jsonLookup fs "link").getD .null).truthy
            then (jsonLookup fs "link").getD .null
            else (jsonLookup fs "url").getD .null).truthy then
        some ("- [" ++ pyStrOf (if (if ((jsonLookup fs "title").getD .null).truthy
            then (jsonLookup fs "title").getD .null
            else (jsonLookup fs "name").getD .null).truthy
          then (if ((jsonLookup fs "title").getD .null).truthy
            then (jsonLookup fs "title").getD .null
            else (jsonLookup fs "name").getD .null)
          else (jsonLookup fs "link").getD .null) ++ "](" ++
          pyStrOf (if ((jsonLookup fs "link").getD .null).truthy
            then (jsonLookup fs "link").getD .null
            else (jsonLookup fs "url").getD .null) ++ ") — " ++ pyStrip snippet)
      else none)
    | _ => Except.error (PyErr.attrError "strip")) = Except.ok (specItemLineJ (.obj fs))
  rw [hsnip]
  simp only [specItemLineJ]
  rcases hT : ((fieldStr (jsonLookup fs "title") <|> fieldStr (jsonLookup fs "name")) <|>
      fieldStr (jsonLookup fs "link")) with _ | T <;>
  rcases hL : (fieldStr (jsonLookup fs "link") <|> fieldStr (jsonLookup fs "url")) with _ | L
  · rw [hT] at ht3
    simp only [Option.isSome_none] at ht3
    rw [ht3]
    simp
  · rw [hT] at ht3
    simp only [Option.isSome_none] at ht3
    rw [ht3]
    simp
  · rw [hL] at hl2
    simp only [Option.isSome_none] at hl2
    rw [hl2]
    simp
  · have hvT := hv3 T hT
    have hvL := hw2 L hL
    rw [hT, hvT] at ht3
    rw [hL, hvL] at hl2
    simp only [Option.isSome_some] at ht3 hl2
    rw [hvT, hvL, ht3, hl2]
    simp [pyStrOf]

lemma mapM_itemLine_wf : ∀ (l : List Json), l.all itemOk = true →
    l.mapM itemLine = .ok (l.map specItemLineJ) := by
  intro l
  induction l with
  | nil => intro _; rfl
  | cons x xs ih =>
    intro h
    simp only [List.all_cons, Bool.and_eq_true] at h
    have hx : itemLine x = .ok (specItemLineJ x) := by
      cases x
      case obj fs => exact itemLine_wf fs h.1
      all_goals simp [itemOk] at h
    rw [List.mapM_cons, hx]
    simp only [ok_bind, ih h.2, List.map_cons]
    rfl

lemma itemsOkOpt_getD {o : Option Json} (h : itemsOkOpt o = true) :
    itemsOk (o.getD (.arr [])) = true := by
  cases o
  · simp [itemsOk]
  · simpa [itemsOkOpt] using h

lemma itemsOk_arr {j : Json} (h : itemsOk j = true) :
    ∃ l, j = .arr l ∧ l.all itemOk = true := by
  cases j <;> simp [itemsOk] at h ⊢
  exact h

lemma all_take {l : List Json} (k : ℕ) (h : l.all itemOk = true) :
    (l.take k).all itemOk = true := by
  simp only [List.all_eq_true] at h ⊢
  exact fun x hx => h x (List.mem_of_mem_take hx)

lemma intercalate_go_length (s : String) : ∀ (l : List String) (acc : String),
    acc.length ≤ (String.intercalate.go acc s l).length := by
  intro l
  induction l with
  | nil => intro acc; simp [String.intercalate.go]
  | cons a as ih =>
    intro acc
    have h1 : acc.length ≤ (acc ++ s ++ a).length := by
      simp only [String.length_append]
      omega
    calc acc.length ≤ (acc ++ s ++ a).length := h1
      _ ≤ _ := by
        rw [show String.intercalate.go acc s (a :: as)
            = String.intercalate.go (acc ++ s ++ a) s as from rfl]
        exact ih (acc ++ s ++ a)

lemma string_length_pos {x : String} (hx : x ≠ "") : 0 < x.length := by
  rcases x with ⟨cs⟩
  cases cs
  · exact absurd rfl hx
  · simp [String.length]

lemma intercalate_ne_empty (x : String) (xs : List String) (hx : x ≠ "") :
    String.intercalate "\n" (x :: xs) ≠ "" := by
  intro hc
  have h1 : 0 < x.length := string_length_pos hx
  have h2 := intercalate_go_length "\n" xs x
  rw [show String.intercalate "\n" (x :: xs) = String.intercalate.go x "\n" xs from rfl] at hc
  rw [hc] at h2
  simp at h2
  omega

lemma specItemLineJ_ne_empty (j : Json) (s : String) (h : specItemLineJ j = some s) :
    s ≠ "" := by
  cases j
  case obj fs =>
    simp only [specItemLineJ] at h
    rcases hT : ((fieldStr (jsonLookup fs "title") <|> fieldStr (jsonLookup fs "name")) <|>
        fieldStr (jsonLookup fs "link")) with _ | T <;>
      rcases hL : (fieldStr (jsonLookup fs "link") <|> fieldStr (jsonLookup fs "url")) with _ | L <;>
      rw [hT, hL] at h
    · cases h
    · cases h
    · cases h
    · rw [show (match some T, some L with
          | some title, some link =>
            some ("- [" ++ title ++ "](" ++ link ++ ") — " ++
              pyStrip ((fieldStr (jsonLookup fs "snippet") <|>
                fieldStr (jsonLookup fs "summary")).getD ""))
          | _, _ => (none : Option String))
          = some ("- [" ++ T ++ "](" ++ L ++ ") — " ++
              pyStrip ((fieldStr (jsonLookup fs "snippet") <|>
                fieldStr (jsonLookup fs "summary")).getD "")) from rfl] at h
      obtain rfl := Option.some.inj h
      intro hc
      have hlen := congrArg String.length hc
      simp only [String.length_append] at hlen
      have h3 : ("- [" : String).length = 3 := rfl
      have h0 : ("" : String).length = 0 := rfl
      rw [h3, h0] at hlen
      omega
  all_goals exact Option.noConfusion h

lemma filterMap_id_map (l : List Json) :
    (l.map specItemLineJ).filterMap id = l.filterMap specItemLineJ := by
  induction l with
  | nil => rfl
  | cons x xs ih => simp [List.filterMap_cons, ih]

lemma lines_case (lines : List String) (hne : ∀ x ∈ lines, x ≠ "") (r : String) :
    (if String.intercalate "\n" lines = "" then r else String.intercalate "\n" lines)
      = (if lines = [] then r else String.intercalate "\n" lines) := by
  rcases lines with _ | ⟨x, xs⟩
  · rfl
  · rw [if_neg (intercalate_ne_empty x xs (hne x (by simp))), if_neg (by simp)]

lemma normalizeResults_wf (data : Json) (n : ℤ) (raw : Json → String)
    (hwf : wellFormedResults data = true) (hn : 0 ≤ n) :
    normalizeResults data (.ok n) raw = .ok (specNormalizeAmended data n raw) := by
  cases data
  case obj fs =>
    simp only [wellFormedResults, Bool.and_eq_true] at hwf
    obtain ⟨ho, hr⟩ := hwf
    have hOk : itemsOk ((jsonLookup fs "organic").getD (.arr [])) = true := itemsOkOpt_getD ho
    have hRk : itemsOk ((jsonLookup fs "results").getD (.arr [])) = true := itemsOkOpt_getD hr
    by_cases hc : ((jsonLookup fs "organic").getD (Json.arr [])).truthy = true
    · obtain ⟨l, hEq, hAll⟩ := itemsOk_arr hOk
      have hlines : ∀ x ∈ (l.take n.toNat).filterMap specItemLineJ, x ≠ "" := by
        intro x hx
        obtain ⟨a, _, ha⟩ := List.mem_filterMap.mp hx
        exact specItemLineJ_ne_empty a x ha
      simp only [normalizeResults, pyGet, ok_bind, pure_ok, hc, if_true]
      rw [hEq]
      simp only [pySlice, if_pos hn, ok_bind, pyIterate,
        mapM_itemLine_wf _ (all_take _ hAll), ok_bind, filterMap_id_map]
      rw [lines_case _ hlines]
      simp only [specNormalizeAmended, hc, if_true]
      rw [hEq]
    · obtain ⟨l, hEq, hAll⟩ := itemsOk_arr hRk
      have hlines : ∀ x ∈ (l.take n.toNat).filterMap specItemLineJ, x ≠ "" := by
        intro x hx
        obtain ⟨a, _, ha⟩ := List.mem_filterMap.mp hx
        exact specItemLineJ_ne_empty a x ha
      simp only [normalizeResults, pyGet, ok_bind, pure_ok, hc, if_false]
      rw [hEq]
      simp only [pySlice, if_pos hn, ok_bind, pyIterate,
        mapM_itemLine_wf _ (all_take _ hAll), ok_bind, filterMap_id_map]
      rw [lines_case _ hlines]
      simp only [specNormalizeAmended, hc, if_false]
      rw [hEq]
      simp only [Bool.false_eq_true, if_false]
  all_goals simp [wellFormedResults] at hwf

/-- C5 counterexample: on a response whose `organic` key is present but
empty while `results` holds a good item, the code renders the `results`
item (Python `or` prefers a TRUTHY `organic`, not a present one), whereas
the claim as worded — prefer `organic` whenever present — would find no
survivors and return the raw JSON. -/
theorem claim_C5_counterexample :
    normalizeResults dataCE (.ok 5) jsonDumps = .ok "- [T](L) — S"
    ∧ specNormalizeClaimed dataCE 5 jsonDumps
        = "\x7b\"organic\": [], \"results\": [\x7b\"title\": \"T\", \"link\": \"L\", \"snippet\": \"S\"\x7d]\x7d"
    ∧ ("- [T](L) — S" : String)
        ≠ "\x7b\"organic\": [], \"results\": [\x7b\"title\": \"T\", \"link\": \"L\", \"snippet\": \"S\"\x7d]\x7d" := by
  exact ⟨by with_unfolding_all rfl, by with_unfolding_all rfl, by decide⟩

/-- C5 (amended): on every wire-contract response the search normalization
equals the specification-side normalization that reads the item list from
`organic` when that value is truthy (present AND nonempty) and otherwise
from `results`, truncates to the limit, extracts title/link/snippet with
the claimed fallback orders (a present-but-empty string also falls
through), drops items lacking a title or link, renders
`- [title](link) — snippet` lines, and returns the raw JSON rendering when
no lines survive. -/
theorem claim_C5 (data : Json) (n : ℤ) (raw : Json → String)
    (hwf : wellFormedResults data = true) (hn : 0 ≤ n) :
    normalizeResults data (.ok n) raw = .ok (specNormalizeAmended data n raw) :=
  normalizeResults_wf data n raw hwf hn

theorem claim_C5_witness :
    wellFormedResults dataCE = true
    ∧ (0 : ℤ) ≤ 5
    ∧ normalizeResults dataCE (.ok 5) jsonDumps = .ok "- [T](L) — S" := by
  refine ⟨by decide, by decide, ?_⟩
  exact (claim_C5 dataCE 5 jsonDumps (by decide) (by decide)).trans (by with_unfolding_all rfl)

/-- C1 counterexample: a failing completion call writes ZERO trace
records — the HTTP error propagates out of `LoggingLLM.call` before any
trace file is written — contradicting "exactly one trace/log record …
regardless of whether the call succeeds or fails". -/
theorem claim_C1_counterexample :
    (llm_call cfgOpenai t500llm (.inl "hi") {}).traces = 0
    ∧ (llm_call cfgOpenai t500llm (.inl "hi") {}).result
        = .error (.httpError (some 500) "server error")
    ∧ (0 : ℕ) ≠ 1 := by
  exact ⟨by with_unfolding_all rfl, by with_unfolding_all rfl, by decide⟩

/-- C1 (amended): a completion call writes exactly one trace record when
it returns successfully and zero when it fails (the failure propagates
before any trace is written); a `SerperDevToolRobust._run` search call
writes exactly one log record whether `_http` succeeds or fails (given
wire-contract 2xx bodies); a `serper_search` call that passes
configuration parsing writes exactly one log record on every outcome. -/
theorem claim_C1 :
    (∀ cfg t input kw,
      (llm_call cfg t input kw).traces
        = if (llm_call cfg t input kw).result.isOk then 1 else 0)
    ∧ (∀ (cfg : RobustCfg) t envT envD q,
      (∀ j, (robust_http t cfg.retries cfg.backoff).outcome = .ok j →
        wellFormedResults j = true) →
      (robust_run cfg t envT envD q).logs = 1)
    ∧ (∀ env t q num, (serperToolSetup env num).isOk = true →
      (serper_search env t q num).logs = 1) := by
  refine ⟨?_, ?_, ?_⟩
  · intro cfg t input kw
    show tracesMatchResult (llm_call cfg t input kw)
    unfold llm_call
    repeat' (first
      | split
      | (dsimp only [tracesMatchResult]))
    all_goals simp_all [tracesMatchResult, Except.isOk, Except.toBool]
  · intro cfg t envT envD q hwf
    unfold robust_run
    rcases ho : (robust_http t cfg.retries cfg.backoff).outcome with e | j
    · simp only [ho]
    · have hj := hwf j ho
      have htr : (do
          let n ← pyGet (normalize_params (pyStrip q) envT envD) "num" (.num 5)
          pyIndexVal n : Except PyErr ℤ) = .ok 5 := by
        with_unfolding_all rfl
      simp only [ho, htr, normalizeResults_wf j 5 jsonDumps hj (by norm_num)]
  · intro env t q num hok
    unfold serper_search
    rcases hs : serperToolSetup env num with e | out
    · rw [hs] at hok
      simp [Except.isOk, Except.toBool] at hok
    · obtain ⟨ep, tm, rt, b, nC⟩ := out
      simp only [hs]
      exact toolLoopGo_logs t b _ nC rt.toNat 0 0 none []

theorem claim_C1_witness :
    ((llm_call cfgOllama t404gen (.inr [plainMsg "user" "x"]) {}).traces
        = if (llm_call cfgOllama t404gen (.inr [plainMsg "user" "x"]) {}).result.isOk
          then 1 else 0)
    ∧ (robust_run { api_key := some "k" } t503 none none "q").logs = 1
    ∧ (serperToolSetup envK 5).isOk = true
    ∧ (serper_search envK t401 "q" 5).logs = 1 := by
  refine ⟨claim_C1.1 cfgOllama t404gen (.inr [plainMsg "user" "x"]) {}, ?_, by decide, ?_⟩
  · apply claim_C1.2.1 ({ api_key := some "k" } : RobustCfg) t503 none none "q"
    intro j hj
    have hout : (robust_http t503 ({ api_key := some "k" } : RobustCfg).retries
        ({ api_key := some "k" } : RobustCfg).backoff).outcome = .ok okBody := by
      with_unfolding_all rfl
    rw [hout] at hj
    obtain rfl := Except.ok.inj hj
    decide
  · exact claim_C1.2.2 envK t401 "q" 5 (by decide)

end ClockworkMuse
